import Mathlib

/-!
Shallow embedding of the reservation admission logic of a multi-tenant
reservation system (Firestore service layer plus the `createReservation`
callable), together with theorems about its detail validators, conflict
checker and admission flow.

Source of truth: `functions/src/services/firestore.service.ts`
(`validateReservationDetails`, `validateReservationDetailsAdvanced`,
`checkReservationConflicts`, `createReservationFull`) and
`functions/src/index.ts` (`createReservation` callable), with record shapes
from `functions/src/models/firestore-types.ts`.

Modelling conventions:
- Firestore `Timestamp` instants are modelled as `Int` (chronological order
  is all the code uses).
- JavaScript runtime values stored in a reservation `details` map are
  modelled as scalars (string / number / boolean) or arrays of scalars
  (`JValue`); JS numbers are modelled as `Int`.
- An absent object key is `Option.none`; JS `null`/`undefined` accesses on
  the details map are both modelled by `none`.
- Server-assigned fields (`createdAt`, `updatedAt`, approval metadata,
  request IP / user agent) and presentation-only schema fields
  (`label`, `placeholder`) are omitted: the admission logic never reads
  them.
- Error message strings are reproduced verbatim from the source (the quote
  character around field names is written with the `\x27` escape).
-/

/-- `SchemaFieldDefinition.type` values (`firestore-types.ts`). -/
inductive FieldType
  | string
  | number
  | boolean
  | array
  | object
deriving DecidableEq, Repr

/-- A JavaScript scalar: the declared value type of the `details` record
(`Record<string, string | number | boolean>`). -/
inductive Scalar
  | str (s : String)
  | num (n : Int)
  | bool (b : Bool)
deriving DecidableEq, Repr

/-- A runtime value found in a `details` map: a scalar, or an array of
scalars (the validator explicitly handles arrays via `Array.isArray`). -/
inductive JValue
  | scalar (v : Scalar)
  | arr (elems : List Scalar)
deriving DecidableEq, Repr

/-- JS `String(x)` on a scalar. -/
def scalarString : Scalar → String
  | .str s => s
  | .num n => toString n
  | .bool b => if b then "true" else "false"

/-- JS `String(x)` on a value (arrays stringify as comma-joined elements). -/
def jsString : JValue → String
  | .scalar v => scalarString v
  | .arr elems => String.intercalate "," (elems.map scalarString)

/-- First-match association-list lookup, modelling JS object key access
(object keys are unique, so first-match is exact). -/
def assocLookup {α : Type} : List (String × α) → String → Option α
  | [], _ => none
  | (k, v) :: rest, key => if k = key then some v else assocLookup rest key

/-- `SchemaFieldDefinition` from `firestore-types.ts` (presentation-only
`label`/`placeholder` omitted). -/
structure SchemaFieldDefinition where
  name : String
  type : FieldType
  required : Bool
  options : Option (List String) := none
  min : Option Int := none
  max : Option Int := none
deriving DecidableEq, Repr

/-- `ReservationTypeSchema` from `firestore-types.ts` (display-only
`name`/`description` omitted). -/
structure ReservationTypeSchema where
  fields : List SchemaFieldDefinition
  requiresApproval : Bool
deriving DecidableEq, Repr

/-- Result record of `validateReservationDetailsAdvanced`. -/
structure ValidationResult where
  isValid : Bool
  errors : List String
deriving DecidableEq, Repr

/-- Result record of the legacy `validateReservationDetails`. -/
structure LegacyValidationResult where
  isValid : Bool
  missingFields : List String
deriving DecidableEq, Repr

/-- `TenantDocument.schemaConfig` from `firestore-types.ts`. -/
structure SchemaConfig where
  reservationTypes : List (String × ReservationTypeSchema)
  reservationFields : Option (List String) := none
  requiresApproval : Option Bool := none
deriving DecidableEq, Repr

/-- The `hasValue` test of the advanced validator:
`value !== null && value !== undefined && value !== ""`. -/
def hasValue : Option JValue → Bool
  | none => false
  | some v => if v = JValue.scalar (.str "") then false else true

/-- The `switch (field.type)` block of `validateReservationDetailsAdvanced`
(lines 301-331): type mismatch messages, plus inclusive `min`/`max` checks
for numbers.  Note the switch has no `object` case, so `object`-typed
fields are never type-checked. -/
def typeErrors (f : SchemaFieldDefinition) (v : JValue) : List String :=
  match f.type with
  | .string =>
    match v with
    | .scalar (.str _) => []
    | _ => ["Field \x27" ++ f.name ++ "\x27 must be a string"]
  | .number =>
    match v with
    | .scalar (.num n) =>
      (match f.min with
       | some m => if n < m then ["Field \x27" ++ f.name ++ "\x27 must be at least " ++ toString m] else []
       | none => []) ++
      (match f.max with
       | some m => if n > m then ["Field \x27" ++ f.name ++ "\x27 must be at most " ++ toString m] else []
       | none => [])
    | _ => ["Field \x27" ++ f.name ++ "\x27 must be a number"]
  | .boolean =>
    match v with
    | .scalar (.bool _) => []
    | _ => ["Field \x27" ++ f.name ++ "\x27 must be a boolean"]
  | .array =>
    match v with
    | .arr _ => []
    | _ => ["Field \x27" ++ f.name ++ "\x27 must be an array"]
  | .object => []

/-- The options block of `validateReservationDetailsAdvanced`
(lines 333-349): runs whenever `field.options` is a non-empty list; the
per-element rule applies only when the field is `array`-typed AND the value
is actually an array, otherwise the scalar rule applies to `String(value)`. -/
def optionsErrors (f : SchemaFieldDefinition) (v : JValue) : List String :=
  match f.options with
  | some opts =>
    if opts.length > 0 then
      match f.type, v with
      | .array, .arr items =>
        (items.filter (fun it => !(decide (scalarString it ∈ opts)))).map (fun it =>
          "Field \x27" ++ f.name ++ "\x27 contains invalid option \x27" ++ scalarString it ++
            "\x27. Allowed: " ++ String.intercalate ", " opts)
      | _, _ =>
        if jsString v ∈ opts then []
        else ["Field \x27" ++ f.name ++ "\x27 must be one of: " ++ String.intercalate ", " opts]
    else []
  | none => []

/-- One iteration of the `for (const field of schemaDefinition.fields)` loop
of `validateReservationDetailsAdvanced`, given `details[field.name]`. -/
def fieldErrors (f : SchemaFieldDefinition) : Option JValue → List String
  | none => if f.required then ["Field \x27" ++ f.name ++ "\x27 is required"] else []
  | some v =>
    if v = JValue.scalar (.str "") then
      if f.required then ["Field \x27" ++ f.name ++ "\x27 is required"] else []
    else
      typeErrors f v ++ optionsErrors f v

/-- `FirestoreService.validateReservationDetailsAdvanced`
(`firestore.service.ts` lines 280-356). -/
def validateReservationDetailsAdvanced (details : List (String × JValue))
    (schemaDefinition : ReservationTypeSchema) : ValidationResult :=
  let errors := schemaDefinition.fields.flatMap (fun f => fieldErrors f (assocLookup details f.name))
  { isValid := errors.length == 0, errors := errors }

/-- `FirestoreService.validateReservationDetails` (legacy validator,
`firestore.service.ts` lines 251-275).  The branch is taken whenever
`schemaConfig.reservationFields` is a defined array (JS truthiness: any
array, even empty, is truthy; `undefined` is falsy). -/
def validateReservationDetails (details : List (String × JValue))
    (schemaConfig : SchemaConfig) : LegacyValidationResult :=
  match schemaConfig.reservationFields with
  | some reservationFields =>
    let missingFields := reservationFields.filter (fun field =>
      match assocLookup details field with
      | none => true
      | some v => if v = JValue.scalar (.str "") then true else false)
    { isValid := missingFields.length == 0, missingFields := missingFields }
  | none => { isValid := true, missingFields := [] }

/-- Reservation lifecycle status (`ReservationDocument.status`). -/
inductive ReservationStatus
  | pending
  | confirmed
  | cancelled
  | completed
  | noShow
deriving DecidableEq, Repr

/-- `ReservationDocument` from `firestore-types.ts`, restricted to the
fields read or written by the admission logic (server timestamps and
approval / cancellation metadata omitted). -/
structure ReservationDocument where
  tenantId : String
  calendarId : String
  reservationTypeKey : String
  start : Int
  «end» : Int
  userId : String
  details : List (String × JValue)
  status : ReservationStatus
deriving DecidableEq, Repr

/-- `TenantDocument`, restricted to the fields the admission flow reads. -/
structure TenantDocument where
  name : String
  domain : String
  schemaConfig : SchemaConfig
deriving DecidableEq, Repr

/-- `CalendarDocument`, restricted to the fields the admission flow reads
(availability windows, slot configuration and booking rules are never
consulted by `createReservation`). -/
structure CalendarDocument where
  tenantId : String
  name : String
  reservationTypeKey : Option String := none
  isActive : Bool := true
deriving DecidableEq, Repr

/-- The Firestore collections the admission flow touches, as id-keyed
association lists (`tenants`, `calendars`, `reservations`). -/
structure Store where
  tenants : List (String × TenantDocument)
  calendars : List (String × CalendarDocument)
  reservations : List (String × ReservationDocument)
deriving DecidableEq, Repr

/-- `FirestoreService.getTenant`. -/
def getTenant (store : Store) (tenantId : String) : Option TenantDocument :=
  assocLookup store.tenants tenantId

/-- `FirestoreService.getCalendar`. -/
def getCalendar (store : Store) (calendarId : String) : Option CalendarDocument :=
  assocLookup store.calendars calendarId

/-- `FirestoreService.checkReservationConflicts`
(`firestore.service.ts` lines 361-385): query on
`tenantId == / calendarId == / status != "cancelled" / start < endTime /
end > startTime`, then drop `excludeReservationId` when supplied. -/
def checkReservationConflicts (store : Store) (tenantId calendarId : String)
    (startTime endTime : Int) (excludeReservationId : Option String) :
    List (String × ReservationDocument) :=
  let snapshot := store.reservations.filter (fun doc =>
    decide (doc.2.tenantId = tenantId) && decide (doc.2.calendarId = calendarId) &&
    decide (doc.2.status ≠ ReservationStatus.cancelled) &&
    decide (doc.2.start < endTime) && decide (doc.2.«end» > startTime))
  snapshot.filter (fun doc =>
    match excludeReservationId with
    | some ex => decide (doc.1 ≠ ex)
    | none => true)

/-- Identifier auto-generated by Firestore `collection(..).add(..)`,
modelled as a fresh name derived from the store. -/
def freshReservationId (store : Store) : String :=
  "res_" ++ toString store.reservations.length

/-- `FirestoreService.createReservationFull` (`firestore.service.ts` lines
390-401): a single `add` of the document, returning the generated id. -/
def createReservationFull (store : Store) (reservationData : ReservationDocument) :
    Store × String :=
  let reservationId := freshReservationId store
  ({ store with reservations := store.reservations ++ [(reservationId, reservationData)] },
    reservationId)

/-- Custom claims attached to the caller's verified identity token. -/
structure AuthToken where
  tenantId : Option String := none
deriving DecidableEq, Repr

/-- `request.auth` of the callable: verified uid plus custom claims. -/
structure AuthInfo where
  uid : String
  token : AuthToken
deriving DecidableEq, Repr

/-- `CreateReservationCallableRequest` from `firestore-types.ts`. -/
structure CreateReservationCallableRequest where
  tenantId : String
  calendarId : String
  start : String
  «end» : String
  details : List (String × JValue)
  reservationTypeKey : Option String := none
deriving DecidableEq, Repr

/-- `HttpsError` codes used by the callable. -/
inductive ErrorCode
  | unauthenticated
  | permissionDenied
  | invalidArgument
  | notFound
  | failedPrecondition
  | internal
deriving DecidableEq, Repr

/-- `HttpsError`: a code plus a human-readable message. -/
structure HttpsError where
  code : ErrorCode
  message : String
deriving DecidableEq, Repr

/-- The claims check of step 1:
`request.auth.token?.tenantId && request.auth.token.tenantId !== data.tenantId`. -/
def tokenTenantMismatch (a : AuthInfo) (tenantId : String) : Bool :=
  match a.token.tenantId with
  | some tt => decide (tt ≠ tenantId)
  | none => false

/-- JS `a || b` on optional strings (the empty string is falsy). -/
def jsOr (a b : Option String) : Option String :=
  match a with
  | some s => if s = "" then b else some s
  | none => b

/-- JS truthiness filter on an optional string: `some s` survives only when
`s` is non-empty (models the `if (!currentReservationTypeKey)` guard). -/
def truthy : Option String → Option String
  | some s => if s = "" then none else some s
  | none => none

/-- The `createReservation` callable (`index.ts` lines 819-956), up to the
store write: authentication and claims check, input shape checks, date
parsing (the external `new Date` parser is passed in as `parseDate`, with
`none` for an invalid date), tenant/calendar resolution, cross-tenant
check, reservation-type key resolution, dynamic schema validation,
conflict check, then document construction and the single
`createReservationFull` write.  The `typeof` checks on the request fields
are vacuously true in this typed model and the `details` object check
always passes (the model's request always carries a map). -/
def createReservationCore (parseDate : String → Option Int) (store : Store)
    (auth : Option AuthInfo) (data : CreateReservationCallableRequest) :
    Except HttpsError (String × ReservationDocument × Store) :=
  match auth with
  | none => .error ⟨.unauthenticated, "User must be authenticated"⟩
  | some a =>
    if tokenTenantMismatch a data.tenantId then
      .error ⟨.permissionDenied, "User does not have access to this tenant"⟩
    else if data.tenantId = "" then
      .error ⟨.invalidArgument, "tenantId is required and must be a string"⟩
    else if data.calendarId = "" then
      .error ⟨.invalidArgument, "calendarId is required and must be a string"⟩
    else if data.start = "" then
      .error ⟨.invalidArgument, "start is required and must be an ISO 8601 string"⟩
    else if data.«end» = "" then
      .error ⟨.invalidArgument, "end is required and must be an ISO 8601 string"⟩
    else
      match parseDate data.start, parseDate data.«end» with
      | some startDate, some endDate =>
        if endDate ≤ startDate then
          .error ⟨.invalidArgument, "End time must be after start time"⟩
        else
          match getTenant store data.tenantId, getCalendar store data.calendarId with
          | none, _ => .error ⟨.notFound, "Tenant not found"⟩
          | some _, none => .error ⟨.notFound, "Calendar not found"⟩
          | some tenant, some calendar =>
            if calendar.tenantId ≠ data.tenantId then
              .error ⟨.permissionDenied, "Calendar does not belong to the specified tenant"⟩
            else
              match truthy (jsOr data.reservationTypeKey calendar.reservationTypeKey) with
              | none => .error ⟨.invalidArgument, "Reservation type key is missing"⟩
              | some currentReservationTypeKey =>
                match assocLookup tenant.schemaConfig.reservationTypes currentReservationTypeKey with
                | none => .error ⟨.invalidArgument, "Invalid reservation type key"⟩
                | some schemaDefinition =>
                  let validationResult :=
                    validateReservationDetailsAdvanced data.details schemaDefinition
                  if validationResult.isValid = false then
                    .error ⟨.invalidArgument,
                      "Validation errors: " ++ String.intercalate ", " validationResult.errors⟩
                  else
                    let conflictingReservations :=
                      checkReservationConflicts store data.tenantId data.calendarId
                        startDate endDate none
                    if conflictingReservations.length > 0 then
                      .error ⟨.failedPrecondition, "Time slot not available"⟩
                    else
                      let reservationData : ReservationDocument :=
                        { tenantId := data.tenantId
                          calendarId := data.calendarId
                          reservationTypeKey := currentReservationTypeKey
                          start := startDate
                          «end» := endDate
                          userId := a.uid
                          details := data.details
                          status := if schemaDefinition.requiresApproval then
                              ReservationStatus.pending
                            else ReservationStatus.confirmed }
                      let written := createReservationFull store reservationData
                      .ok (written.2, reservationData, written.1)
      | _, _ => .error ⟨.invalidArgument, "Invalid date format. Use ISO 8601 format."⟩

/-- The callable seen from outside: the resulting store state paired with
either the success payload (reservation id and the written document) or
the thrown `HttpsError`.  Every rejection path leaves the store untouched
(the only write in the source is the final `createReservationFull`). -/
def createReservation (parseDate : String → Option Int) (store : Store)
    (auth : Option AuthInfo) (data : CreateReservationCallableRequest) :
    Store × Except HttpsError (String × ReservationDocument) :=
  match createReservationCore parseDate store auth data with
  | .ok (reservationId, doc, store2) => (store2, .ok (reservationId, doc))
  | .error e => (store, .error e)

/-- The reservation-type schema the flow resolves for a request: explicit
request key (JS-truthy) falling back to the calendar default, looked up in
the tenant's `schemaConfig.reservationTypes`. -/
def resolvedSchema (store : Store) (data : CreateReservationCallableRequest) :
    Option ReservationTypeSchema :=
  match getTenant store data.tenantId, getCalendar store data.calendarId with
  | some tenant, some calendar =>
    match truthy (jsOr data.reservationTypeKey calendar.reservationTypeKey) with
    | some key => assocLookup tenant.schemaConfig.reservationTypes key
    | none => none
  | _, _ => none

/-- Spec-side predicate: `details` maps every key to a scalar
(string / number / boolean), the declared shape of the `details` record. -/
def scalarOnly (details : List (String × JValue)) : Bool :=
  details.all (fun p => match p.2 with | .scalar _ => true | .arr _ => false)

/-- Spec-side: the present (non-null, non-undefined, non-empty-string)
value of a key, if any. -/
def presentValue (details : List (String × JValue)) (name : String) : Option JValue :=
  match assocLookup details name with
  | some v => if v = JValue.scalar (.str "") then none else some v
  | none => none

/-- Spec-side: the claim's notion of a correctly-typed value — the runtime
type matches the declared field type. -/
def claimedTypeMatches : FieldType → JValue → Bool
  | .string, .scalar (.str _) => true
  | .number, .scalar (.num _) => true
  | .boolean, .scalar (.bool _) => true
  | .array, .arr _ => true
  | _, _ => false

/-- Spec-side: inclusive `min`/`max` bounds hold for a number. -/
def boundsOk (f : SchemaFieldDefinition) (n : Int) : Bool :=
  (match f.min with | some m => decide (m ≤ n) | none => true) &&
  (match f.max with | some m => decide (n ≤ m) | none => true)

/-- Spec-side: the options condition — when `options` is non-empty, the
present value (for array-typed fields with array values: every element)
is drawn, in string form, from the options list. -/
def optionsOk (f : SchemaFieldDefinition) (v : JValue) : Bool :=
  match f.options with
  | some opts =>
    if opts.length > 0 then
      match f.type, v with
      | .array, .arr items => items.all (fun it => decide (scalarString it ∈ opts))
      | _, _ => decide (jsString v ∈ opts)
    else true
  | none => true

/-- `validateReservationDetailsAdvanced(D,S).isValid` as the claim words it:
every required field has a present, correctly-typed value; every
number-typed field with a (numeric) value respects its bounds; every field
with non-empty options has its value drawn from the options. -/
def claimedValid (details : List (String × JValue)) (schema : ReservationTypeSchema) : Bool :=
  schema.fields.all (fun f =>
    (!f.required ||
      (match presentValue details f.name with
       | some v => claimedTypeMatches f.type v
       | none => false)) &&
    (match f.type, presentValue details f.name with
     | .number, some (.scalar (.num n)) => boundsOk f n
     | _, _ => true) &&
    (match presentValue details f.name with
     | some v => optionsOk f v
     | none => true))

/-- Spec-side, amended: the per-field acceptance condition actually
enforced by the validator — `object`-typed fields are never type-checked,
and type-correctness is demanded of every present value, required or not. -/
def enforcedTypeOk : FieldType → JValue → Bool
  | .string, .scalar (.str _) => true
  | .number, .scalar (.num _) => true
  | .boolean, .scalar (.bool _) => true
  | .array, .arr _ => true
  | .object, _ => true
  | _, _ => false

/-- Spec-side, amended: bounds condition as enforced (only `number`-typed
fields holding a numeric value are bounds-checked). -/
def enforcedBoundsOk (f : SchemaFieldDefinition) (v : JValue) : Bool :=
  match v with
  | .scalar (.num n) => if f.type = FieldType.number then boundsOk f n else true
  | _ => true

/-- Spec-side, amended: a single field is accepted iff — absent value:
the field is optional; present value: enforced type check, enforced
bounds check and options check all pass. -/
def fieldOk (f : SchemaFieldDefinition) (details : List (String × JValue)) : Bool :=
  match presentValue details f.name with
  | none => !f.required
  | some v => enforcedTypeOk f.type v && enforcedBoundsOk f v && optionsOk f v
/-- A half-open time interval `[start, end)`. -/
structure TimeInterval where
  start : Int
  «end» : Int
deriving DecidableEq, Repr

/-- The overlap predicate embodied in the conflict checker's query:
`[s1,e1)` and `[s2,e2)` overlap iff `s1 < e2 AND e1 > s2`
(`firestore.service.ts` line 374). -/
def overlaps (a b : TimeInterval) : Bool :=
  decide (a.start < b.«end») && decide (a.«end» > b.start)

/-- Example fixture: a "meeting" schema requiring a string `title` with an
optional bounded number `attendees`; approval required. -/
def exSchema : ReservationTypeSchema :=
  ⟨[⟨"title", FieldType.string, true, none, none, none⟩,
    ⟨"attendees", FieldType.number, false, none, some 1, some 20⟩], true⟩

/-- Example fixture: tenant `t1` with the "meeting" reservation type. -/
def exTenant : TenantDocument :=
  ⟨"Acme Corp", "acme.example", ⟨[("meeting", exSchema)], none, none⟩⟩

/-- Example fixture: calendar owned by `t1`, defaulting to "meeting". -/
def exCalendar : CalendarDocument := ⟨"t1", "Room A", some "meeting", true⟩

/-- Example fixture: store with one tenant, one calendar, no reservations. -/
def exStore : Store := ⟨[("t1", exTenant)], [("c1", exCalendar)], []⟩

/-- Example fixture: an authenticated caller with no tenant claims. -/
def exAuth : AuthInfo := ⟨"u1", ⟨none⟩⟩

/-- Example fixture: a date-parse oracle for the two instants used by the
example requests. -/
def exParse : String → Option Int := fun s =>
  if s = "2025-01-01T09:00:00Z" then some 900
  else if s = "2025-01-01T10:00:00Z" then some 1000
  else none

/-- Example fixture: a well-formed admission request on `t1`/`c1`. -/
def exRequest : CreateReservationCallableRequest :=
  ⟨"t1", "c1", "2025-01-01T09:00:00Z", "2025-01-01T10:00:00Z",
    [("title", JValue.scalar (Scalar.str "Standup"))], some "meeting"⟩

/-- Example fixture: the document the successful example run writes. -/
def exDoc : ReservationDocument :=
  ⟨"t1", "c1", "meeting", 900, 1000, "u1",
    [("title", JValue.scalar (Scalar.str "Standup"))], ReservationStatus.pending⟩



lemma typeErrors_eq_nil_iff (f : SchemaFieldDefinition) (v : JValue) :
    typeErrors f v = [] ↔ (enforcedTypeOk f.type v && enforcedBoundsOk f v) = true := by
  unfold typeErrors enforcedTypeOk enforcedBoundsOk
  cases hft : f.type <;> cases v <;> try (rename_i s; cases s) <;>
    simp [hft, boundsOk]
  all_goals (cases f.min <;> cases f.max <;> simp <;> omega)

lemma optionsErrors_eq_nil_iff (f : SchemaFieldDefinition) (v : JValue) :
    optionsErrors f v = [] ↔ optionsOk f v = true := by
  unfold optionsErrors optionsOk
  cases f.options with
  | none => simp
  | some opts =>
    by_cases hl : opts.length > 0
    · simp only [if_pos hl]
      cases hft : f.type <;> cases v <;> simp [List.filter_eq_nil_iff, List.all_eq_true]
    · simp [if_neg hl]

lemma fieldErrors_eq_nil_iff (f : SchemaFieldDefinition) (details : List (String × JValue)) :
    fieldErrors f (assocLookup details f.name) = [] ↔ fieldOk f details = true := by
  unfold fieldErrors fieldOk presentValue
  cases h : assocLookup details f.name with
  | none => cases hr : f.required <;> simp
  | some v =>
    by_cases hv : v = JValue.scalar (.str "")
    · cases hr : f.required <;> simp [hv, hr]
    · simp only [if_neg hv]
      rw [List.append_eq_nil, typeErrors_eq_nil_iff, optionsErrors_eq_nil_iff]
      simp

lemma flatMap_congr_mem {α β : Type} {l : List α} {f g : α → List β}
    (h : ∀ x ∈ l, f x = g x) : l.flatMap f = l.flatMap g := by
  induction l with
  | nil => rfl
  | cons a t ih =>
    simp only [List.flatMap_cons]
    rw [h a (List.mem_cons_self a t), ih (fun x hx => h x (List.mem_cons_of_mem a hx))]

/-- C1 (counterexample): the claimed two-way characterisation of
`validateReservationDetailsAdvanced` fails on a schema with a single
*optional* `string` field holding a number value: the validator rejects
(type mismatch on a non-required field), while the claimed condition —
which demands correct typing only of *required* fields — accepts. -/
theorem validateAdvanced_claimed_iff_counterexample :
    (validateReservationDetailsAdvanced [("f", JValue.scalar (Scalar.num 5))]
      ⟨[⟨"f", FieldType.string, false, none, none, none⟩], false⟩).isValid = false ∧
    claimedValid [("f", JValue.scalar (Scalar.num 5))]
      ⟨[⟨"f", FieldType.string, false, none, none, none⟩], false⟩ = true := by
  constructor <;> decide

/-- C1 (amended): for scalar-valued detail maps,
`validateReservationDetailsAdvanced(D,S).isValid` is `true` iff every field
of `S` passes its per-field condition: required fields have a present,
non-null, non-empty-string value; every *present* value (required or not)
passes the declared-type check (with `object`-typed fields never
type-checked); `number`-typed fields with numeric values respect their
inclusive `min`/`max` bounds; and fields with a non-empty options list have
their present value drawn, in string form, from that list.  Moreover keys
of `D` not named by any field of `S` never affect the result: the outcome
only depends on the lookups at the schema's field names. -/
theorem validateAdvanced_valid_iff (D : List (String × JValue)) (S : ReservationTypeSchema)
    (_hD : scalarOnly D = true) :
    (((validateReservationDetailsAdvanced D S).isValid = true) ↔
      ∀ f ∈ S.fields, fieldOk f D = true) ∧
    (∀ D' : List (String × JValue),
      (∀ f ∈ S.fields, assocLookup D f.name = assocLookup D' f.name) →
      validateReservationDetailsAdvanced D S = validateReservationDetailsAdvanced D' S) := by
  constructor
  · unfold validateReservationDetailsAdvanced
    simp only [beq_iff_eq, List.length_eq_zero, List.flatMap_eq_nil_iff]
    exact ⟨fun h f hf => (fieldErrors_eq_nil_iff f D).mp (h f hf),
      fun h f hf => (fieldErrors_eq_nil_iff f D).mpr (h f hf)⟩
  · intro D' hagree
    unfold validateReservationDetailsAdvanced
    rw [flatMap_congr_mem (fun f hf => by rw [hagree f hf])]

/-- C1 (witness): concrete instantiation of `validateAdvanced_valid_iff` —
a schema with a required string field and a bounded optional number field,
a details map satisfying it (plus an unknown key), and a second map that
agrees on the schema's field names. -/
theorem validateAdvanced_valid_iff_witness :
    (validateReservationDetailsAdvanced
        [("title", JValue.scalar (Scalar.str "Standup")), ("legacy", JValue.scalar (Scalar.bool true))]
        ⟨[⟨"title", FieldType.string, true, none, none, none⟩,
          ⟨"attendees", FieldType.number, false, none, some 1, some 20⟩], false⟩).isValid = true ∧
    validateReservationDetailsAdvanced
        [("title", JValue.scalar (Scalar.str "Standup")), ("legacy", JValue.scalar (Scalar.bool true))]
        ⟨[⟨"title", FieldType.string, true, none, none, none⟩,
          ⟨"attendees", FieldType.number, false, none, some 1, some 20⟩], false⟩ =
      validateReservationDetailsAdvanced
        [("title", JValue.scalar (Scalar.str "Standup"))]
        ⟨[⟨"title", FieldType.string, true, none, none, none⟩,
          ⟨"attendees", FieldType.number, false, none, some 1, some 20⟩], false⟩ := by
  refine ⟨(validateAdvanced_valid_iff _ _ (by decide)).1.mpr (by decide),
    (validateAdvanced_valid_iff _ _ (by decide)).2 _ (by decide)⟩

/-- C9: when the tenant's `schemaConfig` carries no legacy
`reservationFields` list (absent, or present but empty), the legacy
validator accepts any details map unconditionally: `isValid = true` with an
empty `missingFields` list. -/
theorem validateDetails_no_legacy_fields (details : List (String × JValue))
    (schemaConfig : SchemaConfig)
    (h : schemaConfig.reservationFields = none ∨ schemaConfig.reservationFields = some []) :
    validateReservationDetails details schemaConfig = ⟨true, []⟩ := by
  unfold validateReservationDetails
  rcases h with h | h <;> rw [h] <;> simp

/-- C9 (witness): a non-trivial details map against a config with no
legacy field list, and an empty legacy field list. -/
theorem validateDetails_no_legacy_fields_witness :
    validateReservationDetails [("name", JValue.scalar (Scalar.str ""))]
      ⟨[("meeting", ⟨[], false⟩)], none, some true⟩ = ⟨true, []⟩ ∧
    validateReservationDetails [("name", JValue.scalar (Scalar.str ""))]
      ⟨[], some [], none⟩ = ⟨true, []⟩ :=
  ⟨validateDetails_no_legacy_fields _ _ (Or.inl rfl),
   validateDetails_no_legacy_fields _ _ (Or.inr rfl)⟩

/-- C10: in `validateReservationDetailsAdvanced` the options check runs on
a present value regardless of the outcome of the declared-type check.  For
an `array`-typed field `f` with a non-empty options list and a present
*scalar* (non-array) value `v`, the field contributes the type-mismatch
error AND the *scalar* options rule applied to `String(v)` — so a single
field yields both a type error and an options error whenever `String(v)`
is not among the options, in which case the whole map is rejected. -/
theorem validateAdvanced_options_after_type_mismatch
    (f : SchemaFieldDefinition) (v : Scalar) (opts : List String)
    (hft : f.type = FieldType.array) (hv : v ≠ Scalar.str "")
    (ho : f.options = some opts) (hne : opts ≠ []) :
    ((validateReservationDetailsAdvanced [(f.name, JValue.scalar v)] ⟨[f], false⟩).errors =
      ("Field \x27" ++ f.name ++ "\x27 must be an array") ::
        (if scalarString v ∈ opts then []
         else ["Field \x27" ++ f.name ++ "\x27 must be one of: " ++
           String.intercalate ", " opts])) ∧
    (scalarString v ∉ opts →
      (validateReservationDetailsAdvanced [(f.name, JValue.scalar v)] ⟨[f], false⟩).isValid
        = false) := by
  have hlen : opts.length > 0 := List.length_pos.mpr hne
  have hjv : ¬ (JValue.scalar v = JValue.scalar (Scalar.str "")) := by
    intro hcontra
    exact hv (JValue.scalar.inj hcontra)
  have hlook : assocLookup [(f.name, JValue.scalar v)] f.name = some (JValue.scalar v) := by
    unfold assocLookup
    simp
  have herr : fieldErrors f (some (JValue.scalar v)) =
      ("Field \x27" ++ f.name ++ "\x27 must be an array") ::
        (if scalarString v ∈ opts then []
         else ["Field \x27" ++ f.name ++ "\x27 must be one of: " ++
           String.intercalate ", " opts]) := by
    simp only [fieldErrors]
    rw [if_neg hjv]
    unfold typeErrors optionsErrors
    rw [hft, ho]
    cases v <;> simp [jsString, hlen]
  constructor
  · unfold validateReservationDetailsAdvanced
    simp only [List.flatMap_cons, List.flatMap_nil, List.append_nil, hlook, herr]
  · intro hnot
    unfold validateReservationDetailsAdvanced
    simp only [List.flatMap_cons, List.flatMap_nil, List.append_nil, hlook, herr]
    simp [if_neg hnot]

/-- C10 (witness): a concrete `array`-typed field with options
`["a", "b"]` and the scalar value `"c"`: both the array type error and the
scalar-rule options error are emitted, and validation fails. -/
theorem validateAdvanced_options_after_type_mismatch_witness :
    ((validateReservationDetailsAdvanced
        [("tags", JValue.scalar (Scalar.str "c"))]
        ⟨[⟨"tags", FieldType.array, true, some ["a", "b"], none, none⟩], false⟩).errors =
      ["Field \x27tags\x27 must be an array",
       "Field \x27tags\x27 must be one of: a, b"]) ∧
    (validateReservationDetailsAdvanced
        [("tags", JValue.scalar (Scalar.str "c"))]
        ⟨[⟨"tags", FieldType.array, true, some ["a", "b"], none, none⟩], false⟩).isValid
      = false := by
  have h := validateAdvanced_options_after_type_mismatch
    ⟨"tags", FieldType.array, true, some ["a", "b"], none, none⟩
    (Scalar.str "c") ["a", "b"] rfl (by decide) rfl (by decide)
  refine ⟨?_, h.2 (by decide)⟩
  rw [h.1]
  decide

/-- C3: the overlap predicate is symmetric, is false whenever one interval
ends at or before the other starts (touching endpoints never conflict),
and is exactly the time condition the conflict checker filters on: every
reservation the checker returns overlaps the proposed interval. -/
theorem overlaps_symm_touching_and_conflicts :
    (∀ a b : TimeInterval, overlaps a b = overlaps b a) ∧
    (∀ a b : TimeInterval, a.«end» ≤ b.start ∨ b.«end» ≤ a.start → overlaps a b = false) ∧
    (∀ (store : Store) (tenantId calendarId : String) (startTime endTime : Int)
        (excl : Option String) (doc : String × ReservationDocument),
      doc ∈ checkReservationConflicts store tenantId calendarId startTime endTime excl →
      overlaps ⟨doc.2.start, doc.2.«end»⟩ ⟨startTime, endTime⟩ = true) := by
  refine ⟨?_, ?_, ?_⟩
  · intro a b
    simp only [overlaps, gt_iff_lt]
    exact Bool.and_comm _ _
  · intro a b h
    simp only [overlaps, gt_iff_lt]
    rcases h with h | h <;> simp <;> omega
  · intro store tenantId calendarId startTime endTime excl doc hmem
    unfold checkReservationConflicts at hmem
    have hmem2 := (List.mem_filter.mp hmem).1
    have hcond := (List.mem_filter.mp hmem2).2
    simp only [Bool.and_eq_true, decide_eq_true_eq] at hcond
    simp only [overlaps, gt_iff_lt, Bool.and_eq_true, decide_eq_true_eq]
    exact ⟨hcond.1.2, hcond.2⟩

/-- C3 (witness): touching intervals `[0,10)` and `[10,20)` do not
overlap; a stored reservation over `[930,1030)` returned by the checker
against a proposed `[900,1000)` does overlap it. -/
theorem overlaps_symm_touching_and_conflicts_witness :
    overlaps ⟨0, 10⟩ ⟨10, 20⟩ = false ∧
    overlaps ⟨930, 1030⟩ ⟨900, 1000⟩ = true := by
  refine ⟨overlaps_symm_touching_and_conflicts.2.1 ⟨0, 10⟩ ⟨10, 20⟩ (Or.inl (by decide)), ?_⟩
  exact overlaps_symm_touching_and_conflicts.2.2
    ⟨[], [], [("r1", ⟨"t1", "c1", "meeting", 930, 1030, "u2", [], .confirmed⟩)]⟩
    "t1" "c1" 900 1000 none
    ("r1", ⟨"t1", "c1", "meeting", 930, 1030, "u2", [], .confirmed⟩) (by decide)

/-- Anatomy of a successful run of the admission flow: every guard on the
path passed, and the returned id, document and store have the shapes built
in step 7. -/
lemma createReservationCore_ok (parseDate : String → Option Int) (store : Store)
    (auth : Option AuthInfo) (data : CreateReservationCallableRequest)
    (rid : String) (doc : ReservationDocument) (store2 : Store)
    (h : createReservationCore parseDate store auth data = .ok (rid, doc, store2)) :
    ∃ a s e tenant calendar key schemaDefinition,
      auth = some a ∧
      tokenTenantMismatch a data.tenantId = false ∧
      data.tenantId ≠ "" ∧ data.calendarId ≠ "" ∧ data.start ≠ "" ∧ data.«end» ≠ "" ∧
      parseDate data.start = some s ∧ parseDate data.«end» = some e ∧ ¬ e ≤ s ∧
      getTenant store data.tenantId = some tenant ∧
      getCalendar store data.calendarId = some calendar ∧
      calendar.tenantId = data.tenantId ∧
      truthy (jsOr data.reservationTypeKey calendar.reservationTypeKey) = some key ∧
      assocLookup tenant.schemaConfig.reservationTypes key = some schemaDefinition ∧
      (validateReservationDetailsAdvanced data.details schemaDefinition).isValid = true ∧
      checkReservationConflicts store data.tenantId data.calendarId s e none = [] ∧
      rid = freshReservationId store ∧
      doc = { tenantId := data.tenantId, calendarId := data.calendarId,
              reservationTypeKey := key, start := s, «end» := e,
              userId := a.uid, details := data.details,
              status := if schemaDefinition.requiresApproval then
                  ReservationStatus.pending
                else ReservationStatus.confirmed } ∧
      store2 = { store with reservations := store.reservations ++ [(rid, doc)] } := by
  cases auth with
  | none => simp [createReservationCore] at h
  | some a =>
  cases hmis : tokenTenantMismatch a data.tenantId with
  | true => simp [createReservationCore, hmis] at h
  | false =>
  by_cases ht : data.tenantId = ""
  · rw [ht] at hmis
    simp [createReservationCore, hmis, ht] at h
  by_cases hc : data.calendarId = ""
  · simp [createReservationCore, hmis, ht, hc] at h
  by_cases hs : data.start = ""
  · simp [createReservationCore, hmis, ht, hc, hs] at h
  by_cases he : data.«end» = ""
  · simp [createReservationCore, hmis, ht, hc, hs, he] at h
  cases hps : parseDate data.start with
  | none => simp [createReservationCore, hmis, ht, hc, hs, he, hps] at h
  | some s =>
  cases hpe : parseDate data.«end» with
  | none => simp [createReservationCore, hmis, ht, hc, hs, he, hps, hpe] at h
  | some e =>
  by_cases hle : e ≤ s
  · simp [createReservationCore, hmis, ht, hc, hs, he, hps, hpe, hle] at h
  cases hten : getTenant store data.tenantId with
  | none => simp [createReservationCore, hmis, ht, hc, hs, he, hps, hpe, hle, hten] at h
  | some tenant =>
  cases hcal : getCalendar store data.calendarId with
  | none => simp [createReservationCore, hmis, ht, hc, hs, he, hps, hpe, hle, hten, hcal] at h
  | some calendar =>
  by_cases hown : calendar.tenantId = data.tenantId
  case neg =>
    simp [createReservationCore, hmis, ht, hc, hs, he, hps, hpe, hle, hten, hcal, hown] at h
  case pos =>
  cases hkey : truthy (jsOr data.reservationTypeKey calendar.reservationTypeKey) with
  | none =>
    simp [createReservationCore, hmis, ht, hc, hs, he, hps, hpe, hle, hten, hcal, hown, hkey] at h
  | some key =>
  cases hschema : assocLookup tenant.schemaConfig.reservationTypes key with
  | none =>
    simp [createReservationCore, hmis, ht, hc, hs, he, hps, hpe, hle, hten, hcal, hown, hkey,
      hschema] at h
  | some schemaDefinition =>
  by_cases hvalid : (validateReservationDetailsAdvanced data.details schemaDefinition).isValid
      = false
  · simp [createReservationCore, hmis, ht, hc, hs, he, hps, hpe, hle, hten, hcal, hown, hkey,
      hschema, hvalid] at h
  by_cases hconf : (checkReservationConflicts store data.tenantId data.calendarId s e none).length
      > 0
  · simp [createReservationCore, hmis, ht, hc, hs, he, hps, hpe, hle, hten, hcal, hown, hkey,
      hschema, hvalid, hconf] at h
  simp [createReservationCore, hmis, ht, hc, hs, he, hps, hpe, hle, hten, hcal, hown, hkey,
    hschema, hvalid, hconf, createReservationFull] at h
  obtain ⟨hrid, hdoc, hstore⟩ := h
  refine ⟨a, s, e, tenant, calendar, key, schemaDefinition, rfl, hmis, ht, hc, hs, he, rfl, rfl,
    hle, rfl, rfl, hown, hkey, hschema, ?_, ?_, hrid.symm, hdoc.symm, ?_⟩
  · simpa using hvalid
  · exact List.length_eq_zero.mp (Nat.eq_zero_of_not_pos hconf)
  · rw [hstore.symm, hrid, hdoc]

/-- The example run succeeds and writes `exDoc` under the generated id. -/
lemma exRun : createReservation exParse exStore (some exAuth) exRequest =
    ({ exStore with reservations := [("res_0", exDoc)] }, .ok ("res_0", exDoc)) := rfl

/-- C2: `checkReservationConflicts` returns exactly the stored reservations
with the given tenant and calendar, non-cancelled status, `start` strictly
before the proposed end and `end` strictly after the proposed start, minus
the excluded reservation when an `excludeReservationId` is supplied; and
the admission flow treats a non-empty result as a conflict — a successful
admission entails that the conflict set for the parsed interval was empty. -/
theorem checkReservationConflicts_exact :
    (∀ (store : Store) (tenantId calendarId : String) (startTime endTime : Int)
        (excludeReservationId : Option String) (doc : String × ReservationDocument),
      doc ∈ checkReservationConflicts store tenantId calendarId startTime endTime
          excludeReservationId ↔
        doc ∈ store.reservations ∧ doc.2.tenantId = tenantId ∧ doc.2.calendarId = calendarId ∧
        doc.2.status ≠ ReservationStatus.cancelled ∧ doc.2.start < endTime ∧
        doc.2.«end» > startTime ∧
        (∀ ex, excludeReservationId = some ex → doc.1 ≠ ex)) ∧
    (∀ parseDate store auth data rid rdoc,
      (createReservation parseDate store auth data).2 = Except.ok (rid, rdoc) →
      ∃ s e, parseDate data.start = some s ∧ parseDate data.«end» = some e ∧
        checkReservationConflicts store data.tenantId data.calendarId s e none = []) := by
  constructor
  · intro store tenantId calendarId startTime endTime excl doc
    unfold checkReservationConflicts
    simp only [List.mem_filter, Bool.and_eq_true, decide_eq_true_eq]
    cases excl <;> simp <;> tauto
  · intro parseDate store auth data rid rdoc h
    cases hcore : createReservationCore parseDate store auth data with
    | error e => simp [createReservation, hcore] at h
    | ok trip =>
      obtain ⟨rid', doc', store2⟩ := trip
      obtain ⟨a, s, e, tenant, calendar, key, schemaDefinition, _, _, _, _, _, _, hps, hpe, _,
        _, _, _, _, _, _, hconf, _, _, _⟩ :=
        createReservationCore_ok parseDate store auth data rid' doc' store2 hcore
      exact ⟨s, e, hps, hpe, hconf⟩

/-- C2 (witness): the example run succeeds, so its conflict set was empty;
and a concrete membership instance of the characterisation. -/
theorem checkReservationConflicts_exact_witness :
    (∃ s e, exParse exRequest.start = some s ∧ exParse exRequest.«end» = some e ∧
      checkReservationConflicts exStore exRequest.tenantId exRequest.calendarId s e none = []) ∧
    (("r1", (⟨"t1", "c1", "meeting", 930, 1030, "u2", [], .confirmed⟩ : ReservationDocument)) ∈
      checkReservationConflicts
        ⟨[], [], [("r1", ⟨"t1", "c1", "meeting", 930, 1030, "u2", [], .confirmed⟩)]⟩
        "t1" "c1" 900 1000 (some "r2")) :=
  ⟨checkReservationConflicts_exact.2 exParse exStore (some exAuth) exRequest "res_0" exDoc
      (by rw [exRun]),
   (checkReservationConflicts_exact.1 _ "t1" "c1" 900 1000 (some "r2") _).mpr
      (by refine ⟨by simp, rfl, rfl, by decide, by decide, by decide, ?_⟩
          intro ex hex
          cases hex
          decide)⟩

/-- C4: whenever the admission flow succeeds, the created reservation's
status is `pending` exactly when the resolved reservation-type schema's
`requiresApproval` flag is true and `confirmed` otherwise; no other
initial status is possible on the admission path. -/
theorem createReservation_initial_status :
    ∀ parseDate store auth data rid doc,
      (createReservation parseDate store auth data).2 = Except.ok (rid, doc) →
      ∃ schemaDefinition, resolvedSchema store data = some schemaDefinition ∧
        doc.status = (if schemaDefinition.requiresApproval then ReservationStatus.pending
          else ReservationStatus.confirmed) ∧
        (doc.status = ReservationStatus.pending ∨ doc.status = ReservationStatus.confirmed) := by
  intro parseDate store auth data rid doc h
  cases hcore : createReservationCore parseDate store auth data with
  | error e => simp [createReservation, hcore] at h
  | ok trip =>
    obtain ⟨rid', doc', store2⟩ := trip
    obtain ⟨a, s, e, tenant, calendar, key, schemaDefinition, _, _, _, _, _, _, _, _, _,
      hten, hcal, _, hkey, hschema, _, _, _, hdoc, _⟩ :=
      createReservationCore_ok parseDate store auth data rid' doc' store2 hcore
    have hdoc' : doc = doc' := by
      simp [createReservation, hcore] at h
      exact h.2.symm
    refine ⟨schemaDefinition, ?_, ?_, ?_⟩
    · unfold resolvedSchema
      rw [hten, hcal]
      simp [hkey, hschema]
    · rw [hdoc', hdoc]
    · rw [hdoc', hdoc]
      cases schemaDefinition.requiresApproval <;> simp

/-- C4 (witness): the example run resolves the "meeting" schema with
`requiresApproval = true` and indeed yields status `pending`. -/
theorem createReservation_initial_status_witness :
    ∃ schemaDefinition, resolvedSchema exStore exRequest = some schemaDefinition ∧
      exDoc.status = (if schemaDefinition.requiresApproval then ReservationStatus.pending
        else ReservationStatus.confirmed) ∧
      (exDoc.status = ReservationStatus.pending ∨ exDoc.status = ReservationStatus.confirmed) :=
  createReservation_initial_status exParse exStore (some exAuth) exRequest "res_0" exDoc
    (by rw [exRun])

/-- C7: the admission flow performs exactly one reservation-store write on
success — the result store is the input store with precisely the one new
document appended, tenants and calendars untouched — and performs zero
writes on every rejection path: whatever the error, the store is returned
unchanged. -/
theorem createReservation_store_writes :
    ∀ parseDate store auth data,
      (∀ rid doc, (createReservation parseDate store auth data).2 = Except.ok (rid, doc) →
        (createReservation parseDate store auth data).1 =
          { store with reservations := store.reservations ++ [(rid, doc)] }) ∧
      (∀ e, (createReservation parseDate store auth data).2 = Except.error e →
        (createReservation parseDate store auth data).1 = store) := by
  intro parseDate store auth data
  cases hcore : createReservationCore parseDate store auth data with
  | error e =>
    constructor
    · intro rid doc h
      simp [createReservation, hcore] at h
    · intro e' h'
      simp [createReservation, hcore]
  | ok trip =>
    obtain ⟨rid', doc', store2⟩ := trip
    constructor
    · intro rid doc h
      obtain ⟨a, s, e, tenant, calendar, key, schemaDefinition, _, _, _, _, _, _, _, _, _,
        _, _, _, _, _, _, _, _, _, hstore⟩ :=
        createReservationCore_ok parseDate store auth data rid' doc' store2 hcore
      simp [createReservation, hcore] at h ⊢
      rw [hstore, h.1, h.2]
    · intro e' h'
      simp [createReservation, hcore] at h'

/-- C7 (witness): the example success appends exactly its one document;
an unauthenticated request (a rejection) leaves the store unchanged. -/
theorem createReservation_store_writes_witness :
    (createReservation exParse exStore (some exAuth) exRequest).1 =
      { exStore with reservations := exStore.reservations ++ [("res_0", exDoc)] } ∧
    (createReservation exParse exStore none exRequest).1 = exStore :=
  ⟨(createReservation_store_writes exParse exStore (some exAuth) exRequest).1 "res_0" exDoc
      (by rw [exRun]),
   (createReservation_store_writes exParse exStore none exRequest).2
      ⟨.unauthenticated, "User must be authenticated"⟩ rfl⟩

/-- C5: when tenant and calendar both exist but the calendar's own
`tenantId` differs from the requested one, the flow rejects with
PermissionDenied — even when the caller's identity carries no tenant
claims — and it does so for *every* schema configuration, details map and
reservation population (the hypotheses constrain nothing past the calendar
check, so the rejection happens before any schema validation or conflict
checking), leaving the store unchanged. -/
theorem createReservation_cross_tenant_denied :
    ∀ (parseDate : String → Option Int) (store : Store) (a : AuthInfo)
      (data : CreateReservationCallableRequest) (s e : Int)
      (tenant : TenantDocument) (calendar : CalendarDocument),
      a.token.tenantId = none →
      data.tenantId ≠ "" → data.calendarId ≠ "" → data.start ≠ "" → data.«end» ≠ "" →
      parseDate data.start = some s → parseDate data.«end» = some e → ¬ e ≤ s →
      getTenant store data.tenantId = some tenant →
      getCalendar store data.calendarId = some calendar →
      calendar.tenantId ≠ data.tenantId →
      createReservation parseDate store (some a) data =
        (store, Except.error ⟨.permissionDenied,
          "Calendar does not belong to the specified tenant"⟩) := by
  intro parseDate store a data s e tenant calendar htok ht hc hs he hps hpe hle hten hcal hown
  have hmis : tokenTenantMismatch a data.tenantId = false := by
    simp [tokenTenantMismatch, htok]
  have hcore : createReservationCore parseDate store (some a) data =
      Except.error ⟨.permissionDenied, "Calendar does not belong to the specified tenant"⟩ := by
    simp [createReservationCore, hmis, ht, hc, hs, he, hps, hpe, hle, hten, hcal, hown]
  simp [createReservation, hcore]

/-- C5 (witness): tenant `t1` and a calendar owned by `t2` both exist; the
request names tenant `t1` with no claims on the caller, and is rejected as
PermissionDenied. -/
theorem createReservation_cross_tenant_denied_witness :
    createReservation exParse ⟨[("t1", exTenant)], [("c2", ⟨"t2", "Other", none, true⟩)], []⟩
      (some exAuth) { exRequest with calendarId := "c2" } =
      (⟨[("t1", exTenant)], [("c2", ⟨"t2", "Other", none, true⟩)], []⟩,
        Except.error ⟨.permissionDenied, "Calendar does not belong to the specified tenant"⟩) :=
  createReservation_cross_tenant_denied exParse
    ⟨[("t1", exTenant)], [("c2", ⟨"t2", "Other", none, true⟩)], []⟩ exAuth
    { exRequest with calendarId := "c2" } 900 1000 exTenant ⟨"t2", "Other", none, true⟩
    rfl (by decide) (by decide) (by decide) (by decide) rfl rfl (by decide) rfl rfl (by decide)

/-- C6: once a request passes schema validation, a non-empty conflict set
makes the flow reject with error code FailedPrecondition and message
"Time slot not available" — a classification distinct from the
InvalidArgument code used for input and detail-schema validation failures
— leaving the store unchanged. -/
theorem createReservation_conflict_rejection :
    ∀ (parseDate : String → Option Int) (store : Store) (a : AuthInfo)
      (data : CreateReservationCallableRequest) (s e : Int) (tenant : TenantDocument)
      (calendar : CalendarDocument) (key : String) (schemaDefinition : ReservationTypeSchema),
      tokenTenantMismatch a data.tenantId = false →
      data.tenantId ≠ "" → data.calendarId ≠ "" → data.start ≠ "" → data.«end» ≠ "" →
      parseDate data.start = some s → parseDate data.«end» = some e → ¬ e ≤ s →
      getTenant store data.tenantId = some tenant →
      getCalendar store data.calendarId = some calendar →
      calendar.tenantId = data.tenantId →
      truthy (jsOr data.reservationTypeKey calendar.reservationTypeKey) = some key →
      assocLookup tenant.schemaConfig.reservationTypes key = some schemaDefinition →
      (validateReservationDetailsAdvanced data.details schemaDefinition).isValid = true →
      checkReservationConflicts store data.tenantId data.calendarId s e none ≠ [] →
      createReservation parseDate store (some a) data =
        (store, Except.error ⟨.failedPrecondition, "Time slot not available"⟩) ∧
      (ErrorCode.failedPrecondition ≠ ErrorCode.invalidArgument) := by
  intro parseDate store a data s e tenant calendar key schemaDefinition hmis ht hc hs he hps hpe
    hle hten hcal hown hkey hschema hvalid hconf
  have hlen : (checkReservationConflicts store data.tenantId data.calendarId s e none).length
      > 0 := List.length_pos.mpr hconf
  have hcore : createReservationCore parseDate store (some a) data =
      Except.error ⟨.failedPrecondition, "Time slot not available"⟩ := by
    simp [createReservationCore, hmis, ht, hc, hs, he, hps, hpe, hle, hten, hcal, hown, hkey,
      hschema, hvalid, hlen]
  exact ⟨by simp [createReservation, hcore], by decide⟩

/-- C6 (witness): a stored confirmed reservation over `[930,1030)` makes
the example request for `[900,1000)` — which passes schema validation —
fail with FailedPrecondition / "Time slot not available". -/
theorem createReservation_conflict_rejection_witness :
    createReservation exParse ⟨[("t1", exTenant)], [("c1", exCalendar)],
        [("r1", ⟨"t1", "c1", "meeting", 930, 1030, "u2", [], .confirmed⟩)]⟩
      (some exAuth) exRequest =
      (⟨[("t1", exTenant)], [("c1", exCalendar)],
        [("r1", ⟨"t1", "c1", "meeting", 930, 1030, "u2", [], .confirmed⟩)]⟩,
        Except.error ⟨.failedPrecondition, "Time slot not available"⟩) :=
  (createReservation_conflict_rejection exParse
    ⟨[("t1", exTenant)], [("c1", exCalendar)],
      [("r1", ⟨"t1", "c1", "meeting", 930, 1030, "u2", [], .confirmed⟩)]⟩
    exAuth exRequest 900 1000 exTenant exCalendar "meeting" exSchema
    rfl (by decide) (by decide) (by decide) (by decide) rfl rfl (by decide) rfl rfl rfl rfl rfl
    (by decide) (by decide)).1

/-- C8: the reservation-type key resolves to the request-supplied
`reservationTypeKey` when present (JS-truthy, i.e. non-empty), otherwise
to the calendar's default; when neither is present the flow rejects
("Reservation type key is missing"), and when the resolved key does not
exist in the tenant's `schemaConfig.reservationTypes` the flow rejects as
InvalidArgument ("Invalid reservation type key") regardless of the
contents of the details map (the hypotheses leave `data.details`
arbitrary). -/
theorem createReservation_type_key_resolution :
    (∀ (data : CreateReservationCallableRequest) (calendar : CalendarDocument) (k : String),
      data.reservationTypeKey = some k → k ≠ "" →
      jsOr data.reservationTypeKey calendar.reservationTypeKey = some k) ∧
    (∀ (data : CreateReservationCallableRequest) (calendar : CalendarDocument),
      data.reservationTypeKey = none ∨ data.reservationTypeKey = some "" →
      jsOr data.reservationTypeKey calendar.reservationTypeKey = calendar.reservationTypeKey) ∧
    (∀ (parseDate : String → Option Int) (store : Store) (a : AuthInfo)
        (data : CreateReservationCallableRequest) (s e : Int)
        (tenant : TenantDocument) (calendar : CalendarDocument),
      tokenTenantMismatch a data.tenantId = false →
      data.tenantId ≠ "" → data.calendarId ≠ "" → data.start ≠ "" → data.«end» ≠ "" →
      parseDate data.start = some s → parseDate data.«end» = some e → ¬ e ≤ s →
      getTenant store data.tenantId = some tenant →
      getCalendar store data.calendarId = some calendar →
      calendar.tenantId = data.tenantId →
      truthy (jsOr data.reservationTypeKey calendar.reservationTypeKey) = none →
      createReservation parseDate store (some a) data =
        (store, Except.error ⟨.invalidArgument, "Reservation type key is missing"⟩)) ∧
    (∀ (parseDate : String → Option Int) (store : Store) (a : AuthInfo)
        (data : CreateReservationCallableRequest) (s e : Int)
        (tenant : TenantDocument) (calendar : CalendarDocument) (key : String),
      tokenTenantMismatch a data.tenantId = false →
      data.tenantId ≠ "" → data.calendarId ≠ "" → data.start ≠ "" → data.«end» ≠ "" →
      parseDate data.start = some s → parseDate data.«end» = some e → ¬ e ≤ s →
      getTenant store data.tenantId = some tenant →
      getCalendar store data.calendarId = some calendar →
      calendar.tenantId = data.tenantId →
      truthy (jsOr data.reservationTypeKey calendar.reservationTypeKey) = some key →
      assocLookup tenant.schemaConfig.reservationTypes key = none →
      createReservation parseDate store (some a) data =
        (store, Except.error ⟨.invalidArgument, "Invalid reservation type key"⟩)) := by
  refine ⟨?_, ?_, ?_, ?_⟩
  · intro data calendar k hk hne
    simp [jsOr, hk, hne]
  · intro data calendar h
    rcases h with h | h <;> simp [jsOr, h]
  · intro parseDate store a data s e tenant calendar hmis ht hc hs he hps hpe hle hten hcal
      hown hkey
    have hcore : createReservationCore parseDate store (some a) data =
        Except.error ⟨.invalidArgument, "Reservation type key is missing"⟩ := by
      simp [createReservationCore, hmis, ht, hc, hs, he, hps, hpe, hle, hten, hcal, hown, hkey]
    simp [createReservation, hcore]
  · intro parseDate store a data s e tenant calendar key hmis ht hc hs he hps hpe hle hten hcal
      hown hkey hschema
    have hcore : createReservationCore parseDate store (some a) data =
        Except.error ⟨.invalidArgument, "Invalid reservation type key"⟩ := by
      simp [createReservationCore, hmis, ht, hc, hs, he, hps, hpe, hle, hten, hcal, hown, hkey,
        hschema]
    simp [createReservation, hcore]

/-- C8 (witness): the explicit request key wins; with no request key the
calendar default is used; a calendar with no default and no request key is
rejected; and a request key absent from the tenant's SchemaConfig is
rejected as InvalidArgument. -/
theorem createReservation_type_key_resolution_witness :
    jsOr exRequest.reservationTypeKey exCalendar.reservationTypeKey = some "meeting" ∧
    jsOr ({ exRequest with reservationTypeKey := none } :
        CreateReservationCallableRequest).reservationTypeKey exCalendar.reservationTypeKey =
      exCalendar.reservationTypeKey ∧
    createReservation exParse ⟨[("t1", exTenant)], [("c3", ⟨"t1", "Room B", none, true⟩)], []⟩
      (some exAuth) { exRequest with calendarId := "c3", reservationTypeKey := none } =
      (⟨[("t1", exTenant)], [("c3", ⟨"t1", "Room B", none, true⟩)], []⟩,
        Except.error ⟨.invalidArgument, "Reservation type key is missing"⟩) ∧
    createReservation exParse exStore (some exAuth)
      { exRequest with reservationTypeKey := some "nope" } =
      (exStore, Except.error ⟨.invalidArgument, "Invalid reservation type key"⟩) :=
  ⟨createReservation_type_key_resolution.1 exRequest exCalendar "meeting" rfl (by decide),
   createReservation_type_key_resolution.2.1 { exRequest with reservationTypeKey := none }
     exCalendar (Or.inl rfl),
   createReservation_type_key_resolution.2.2.1 exParse
     ⟨[("t1", exTenant)], [("c3", ⟨"t1", "Room B", none, true⟩)], []⟩ exAuth
     { exRequest with calendarId := "c3", reservationTypeKey := none } 900 1000 exTenant
     ⟨"t1", "Room B", none, true⟩ rfl (by decide) (by decide) (by decide) (by decide) rfl rfl
     (by decide) rfl rfl rfl rfl,
   createReservation_type_key_resolution.2.2.2 exParse exStore exAuth
     { exRequest with reservationTypeKey := some "nope" } 900 1000 exTenant exCalendar "nope"
     rfl (by decide) (by decide) (by decide) (by decide) rfl rfl (by decide) rfl rfl rfl rfl rfl⟩
